import Mathlib

/-!
# Template_PVRShell_OpenGLES: the PVRShell application hooks

A shallow embedding of `MSVC/source/main.cpp`.

The file defines one class, `PVRShell_OGLES`, with three data members and the
five virtual hooks the PowerVR shell calls.  `Painter` and `ParticleSystem` are
declared in `painter.hpp` and `particlesystem.hpp`; the hooks use them only
through two member calls on `oParticleSystem`, `vInit()` and `vDraw()`, so the
embedding takes both types and both member functions as parameters.

A hook is embedded as a function from the state it can reach (the rendering
context and the application object) to that state after the hook, the member
calls the hook body made, in program order, and the `bool` it returned.
-/

namespace PVRShell

/-! ## Data model -/

/-- The class `PVRShell_OGLES` (main.cpp, lines 81-96): the vertex buffer
object handle (a `GLuint`; no hook computes with it), the painter and the
particle system. -/
structure PVRShell_OGLES (Painter ParticleSystem : Type) where
  m_ui32Vbo : Nat
  oPainter : Painter
  oParticleSystem : ParticleSystem

/-- What a hook can reach: the rendering context `gl` the shell created, on
which the member functions of the particle system issue their API calls, and
the application object. -/
structure World (Ctx Painter ParticleSystem : Type) where
  gl : Ctx
  app : PVRShell_OGLES Painter ParticleSystem

/-- The two member functions of `ParticleSystem` that main.cpp calls.  Both are
called as statements, on `oParticleSystem`, without arguments, and whatever
they return is dropped; each may change the rendering context and the object
it is called on, and each is taken to return to its caller. -/
structure ParticleSystemOps (Ctx ParticleSystem : Type) where
  vInit : Ctx → ParticleSystem → Ctx × ParticleSystem
  vDraw : Ctx → ParticleSystem → Ctx × ParticleSystem

/-- The two data members of `PVRShell_OGLES` that are objects, as receivers of
a member call. -/
inductive Member where
  | oPainter
  | oParticleSystem
  deriving DecidableEq

/-- The member functions called in main.cpp. -/
inductive Method where
  | vInit
  | vDraw
  deriving DecidableEq

/-- One member call made by a hook body: `receiver.method()`. -/
structure Call where
  receiver : Member
  method : Method
  deriving DecidableEq

/-- The outcome of one hook invocation. -/
structure HookResult (Ctx Painter ParticleSystem : Type) where
  world : World Ctx Painter ParticleSystem
  calls : List Call
  ret : Bool

variable {Ctx Painter ParticleSystem : Type}

/-! ## The five hooks -/

/-- `PVRShell_OGLES::InitApplication` (lines 109-112): `return true;`. -/
def InitApplication (w : World Ctx Painter ParticleSystem) :
    HookResult Ctx Painter ParticleSystem :=
  { world := w, calls := [], ret := true }

/-- `PVRShell_OGLES::QuitApplication` (lines 122-125): `return true;`. -/
def QuitApplication (w : World Ctx Painter ParticleSystem) :
    HookResult Ctx Painter ParticleSystem :=
  { world := w, calls := [], ret := true }

/-- `PVRShell_OGLES::InitView` (lines 135-140):
`oParticleSystem.vInit(); return true;`. -/
def InitView (ops : ParticleSystemOps Ctx ParticleSystem)
    (w : World Ctx Painter ParticleSystem) : HookResult Ctx Painter ParticleSystem :=
  let r := ops.vInit w.gl w.app.oParticleSystem
  { world := { gl := r.1, app := { w.app with oParticleSystem := r.2 } }
    calls := [⟨Member.oParticleSystem, Method.vInit⟩]
    ret := true }

/-- `PVRShell_OGLES::InitView` (lines 135-140) when `vInit` can raise an error
instead of returning: the body has no handler around
`oParticleSystem.vInit();`, so an error raised there leaves the hook and
reaches its caller, and `return true;` is executed only when `vInit`
returned. -/
def InitViewRaising {Err : Type}
    (vInit : Ctx → ParticleSystem → Except Err (Ctx × ParticleSystem))
    (w : World Ctx Painter ParticleSystem) :
    Except Err (HookResult Ctx Painter ParticleSystem) :=
  match vInit w.gl w.app.oParticleSystem with
  | Except.error e => Except.error e
  | Except.ok r =>
    Except.ok { world := { gl := r.1, app := { w.app with oParticleSystem := r.2 } }
                calls := [⟨Member.oParticleSystem, Method.vInit⟩]
                ret := true }

/-- `PVRShell_OGLES::ReleaseView` (lines 148-151): `return true;`. -/
def ReleaseView (w : World Ctx Painter ParticleSystem) :
    HookResult Ctx Painter ParticleSystem :=
  { world := w, calls := [], ret := true }

/-- `PVRShell_OGLES::RenderScene` (lines 163-168):
`oParticleSystem.vDraw(); return true;`. -/
def RenderScene (ops : ParticleSystemOps Ctx ParticleSystem)
    (w : World Ctx Painter ParticleSystem) : HookResult Ctx Painter ParticleSystem :=
  let r := ops.vDraw w.gl w.app.oParticleSystem
  { world := { gl := r.1, app := { w.app with oParticleSystem := r.2 } }
    calls := [⟨Member.oParticleSystem, Method.vDraw⟩]
    ret := true }

/-- The state after the shell has called `RenderScene` for `n` frames in a
row (the shell calls it once per frame, lines 156-157). -/
def afterFrames (ops : ParticleSystemOps Ctx ParticleSystem) :
    Nat → World Ctx Painter ParticleSystem → World Ctx Painter ParticleSystem
  | 0, w => w
  | n + 1, w => afterFrames ops n (RenderScene ops w).world

/-! ## Concrete inputs

Stand-ins for the two absent classes, used to evaluate the hooks on concrete
states.  The rendering context is the list of buffer objects currently
allocated in it. -/

/-- A particle system that keeps its configured capacity, whether its last
`vInit` failed, and how many frames it has drawn since. -/
structure ProbeSystem where
  capacity : ℤ
  initFailed : Bool
  framesDrawn : ℕ
  deriving DecidableEq

/-- Member functions for `ProbeSystem`.  `vInit` fails on a negative capacity,
recording the failure in the object and allocating nothing; otherwise it
allocates buffer object 1 in the context.  `vDraw` counts the frame. -/
def probeOps : ParticleSystemOps (List ℕ) ProbeSystem where
  vInit := fun gl ps =>
    if ps.capacity < 0 then (gl, { ps with initFailed := true })
    else (1 :: gl, { ps with initFailed := false, framesDrawn := 0 })
  vDraw := fun gl ps => (gl, { ps with framesDrawn := ps.framesDrawn + 1 })

/-- A freshly created context with a default-constructed application: no
buffer allocated, the painter (a flag: resources acquired) not ready, the
particle system configured with capacity 100. -/
def freshWorld : World (List ℕ) Bool ProbeSystem :=
  { gl := [], app := { m_ui32Vbo := 0, oPainter := false,
                       oParticleSystem := { capacity := 100, initFailed := false,
                                            framesDrawn := 0 } } }

/-- A state inside the frame loop: buffer object 1 is allocated in the context
and its handle is held in `m_ui32Vbo`, the painter holds its resources, three
frames have been drawn. -/
def runningWorld : World (List ℕ) Bool ProbeSystem :=
  { gl := [1], app := { m_ui32Vbo := 1, oPainter := true,
                        oParticleSystem := { capacity := 100, initFailed := false,
                                             framesDrawn := 3 } } }

end PVRShell

/-!
# The particle simulation

`particlesystem.hpp` and `painter.hpp` are not part of the sources at hand, so
the simulation is modelled from its written specification (sections 3, 4.1 and
8).  Scalars are exact rationals.  Section 9 has the implementer choose what
happens to a particle whose lifetime runs out; the model takes the policy in
which it is marked dead and excluded, and keeps it in its pool slot with
lifetime 0.  Particles are emitted at initialisation only.
-/

namespace ParticleSim

/-- Modelled from the spec: the 3D vector of section 3 ("position (3D vector),
velocity (3D vector)"); the vector type of particlesystem.hpp is missing. -/
structure Vec3 where
  x : ℚ
  y : ℚ
  z : ℚ
  deriving DecidableEq

/-- Modelled from the spec: componentwise sum of two vectors (the missing
vector arithmetic behind "position integrated from velocity"). -/
def Vec3.add (a b : Vec3) : Vec3 :=
  { x := a.x + b.x, y := a.y + b.y, z := a.z + b.z }

/-- Modelled from the spec: a vector times a scalar (the missing vector
arithmetic behind "velocity × deltaTime"). -/
def Vec3.scale (v : Vec3) (k : ℚ) : Vec3 :=
  { x := v.x * k, y := v.y * k, z := v.z * k }

/-- Modelled from the spec: the Particle of section 3 (the missing particle
record): position, velocity, remaining lifetime in seconds, colour, alpha and
size. -/
structure Particle where
  position : Vec3
  velocity : Vec3
  lifetime : ℚ
  color : Vec3
  alpha : ℚ
  size : ℚ
  deriving DecidableEq

/-- Modelled from the spec: the global simulation parameters of section 3 (the
missing configuration of particlesystem.hpp): pool capacity, particle lifetime
range, force vector, and the spawn policy, which gives the initial spawn state
of each pool slot (it stands for the spawn region and the initial velocity
range). -/
structure Config where
  capacity : ℤ
  lifetimeMin : ℚ
  lifetimeMax : ℚ
  force : Vec3
  spawn : ℕ → Particle

/-- Modelled from the spec: the ConfigurationError of section 7 (the missing
error type), one value per malformation named in section 4.1. -/
inductive ConfigurationError where
  | negativeCapacity
  | negativeLifetimeRange
  deriving DecidableEq

/-- Modelled from the spec: the ParticleSystem of section 3 (the missing class
of particlesystem.hpp): the simulation parameters and the particle pool it
owns. -/
structure ParticleSystem where
  config : Config
  particles : List Particle

/-- Modelled from the spec: the initial state of pool slot `i` (section 4.1,
"seeds initial particle state (position, velocity, lifetime) from the spawn
policy", missing from the sources): what the spawn policy gives, with the
lifetime taken inside the configured particle lifetime range of section 3. -/
def seedParticle (cfg : Config) (i : ℕ) : Particle :=
  { cfg.spawn i with
    lifetime := max cfg.lifetimeMin (min cfg.lifetimeMax (cfg.spawn i).lifetime) }

/-- Modelled from the spec: `initialize()` of section 4.1 (missing from the
sources): rejects a negative capacity or a negative lifetime range with a
configuration error, else allocates the pool at the configured capacity and
seeds every slot. -/
def initializeSystem (cfg : Config) : Except ConfigurationError ParticleSystem :=
  if cfg.capacity < 0 then Except.error ConfigurationError.negativeCapacity
  else if cfg.lifetimeMin < 0 ∨ cfg.lifetimeMax < cfg.lifetimeMin then
    Except.error ConfigurationError.negativeLifetimeRange
  else Except.ok { config := cfg
                   particles := (List.range cfg.capacity.toNat).map (seedParticle cfg) }

/-- Modelled from the spec: one tick of a live particle (section 4.1,
`update`, missing from the sources): "integrate position by velocity ×
deltaTime, apply global force to velocity, decrement lifetime by deltaTime",
the expired lifetime "handled by clamping". -/
def integrate (force : Vec3) (dt : ℚ) (p : Particle) : Particle :=
  { p with position := p.position.add (p.velocity.scale dt)
           velocity := p.velocity.add (force.scale dt)
           lifetime := max 0 (p.lifetime - dt) }

/-- Modelled from the spec: `update` on one particle (section 4.1, missing
from the sources).  A particle with lifetime 0 is dead and "excluded from
further update"; a live one is integrated, and one whose lifetime crosses zero
is thereby "marked dead and excluded": it stays in its slot with lifetime 0. -/
def updateParticle (force : Vec3) (dt : ℚ) (p : Particle) : Particle :=
  if 0 < p.lifetime then integrate force dt p else p

/-- Modelled from the spec: `update(deltaTimeSeconds)` of section 4.1 (missing
from the sources), over every particle of the pool: "no side effects beyond
internal state mutation". -/
def ParticleSystem.update (ps : ParticleSystem) (dt : ℚ) : ParticleSystem :=
  { ps with particles := ps.particles.map (updateParticle ps.config.force dt) }

/-- Modelled from the spec: one entry of the renderable snapshot (the missing
render record): the "render-relevant attributes (position, color/alpha,
size)" of section 4.1. -/
structure RenderEntry where
  position : Vec3
  color : Vec3
  alpha : ℚ
  size : ℚ
  deriving DecidableEq

/-- Modelled from the spec: the render-relevant attributes of one particle
(missing from the sources). -/
def Particle.toRender (p : Particle) : RenderEntry :=
  { position := p.position, color := p.color, alpha := p.alpha, size := p.size }

/-- Modelled from the spec: `getRenderableSnapshot()` of section 4.1 (missing
from the sources): the finite sequence of the live particles' render
attributes, a particle being live when its lifetime is above 0. -/
def ParticleSystem.getRenderableSnapshot (ps : ParticleSystem) : List RenderEntry :=
  (ps.particles.filter (fun p => decide (0 < p.lifetime))).map Particle.toRender

/-- Modelled from the spec: the states a particle system configured with `cfg`
goes through (section 4.1, state machine): Initialized is entered by a
successful `initialize()`, and every `update` stays in it. -/
inductive Reachable (cfg : Config) : ParticleSystem → Prop where
  | init {ps : ParticleSystem} : initializeSystem cfg = Except.ok ps → Reachable cfg ps
  | step {ps : ParticleSystem} (dt : ℚ) : Reachable cfg ps → Reachable cfg (ps.update dt)

/-! ## Concrete inputs -/

/-- The spawn state used in the examples: at the origin, moving along x at
speed 1, lifetime 2 seconds. -/
def seed : Particle :=
  { position := ⟨0, 0, 0⟩, velocity := ⟨1, 0, 0⟩, lifetime := 2,
    color := ⟨1, 1, 1⟩, alpha := 1, size := 1 }

/-- A burst emitter under gravity: capacity 2, lifetime 2 seconds, every slot
spawns `seed`. -/
def burstConfig : Config :=
  { capacity := 2, lifetimeMin := 2, lifetimeMax := 2, force := ⟨0, -98 / 10, 0⟩,
    spawn := fun _ => seed }

/-- The burst system as `initializeSystem burstConfig` leaves it: both slots
seeded. -/
def burstPool : ParticleSystem :=
  { config := burstConfig, particles := [seed, seed] }

end ParticleSim

/-! # The context-creation hook over the modelled particle system -/

namespace PVRShell

end PVRShell

/-! # Properties of the hooks -/

namespace PVRShell

variable {Ctx Painter ParticleSystem : Type}

/-- C1, as stated, fails on the code: the frame hook does not make two calls,
an update and then a draw; in the frame loop its call sequence is not of the
form `[u, d]`. -/
theorem RenderScene_makes_no_update_call :
    ¬ ∃ u d : Call, (RenderScene probeOps runningWorld).calls = [u, d] := by
  rintro ⟨u, d, h⟩
  simp [RenderScene] at h

/-- C1, amended: one invocation of `RenderScene` makes exactly one member
call, `oParticleSystem.vDraw()`; the rendering context and the particle system
afterwards are what `vDraw` left, and the painter and the buffer handle are
as before. -/
theorem RenderScene_draws_once (ops : ParticleSystemOps Ctx ParticleSystem)
    (w : World Ctx Painter ParticleSystem) :
    (RenderScene ops w).calls = [⟨Member.oParticleSystem, Method.vDraw⟩] ∧
    ((RenderScene ops w).world.gl, (RenderScene ops w).world.app.oParticleSystem)
      = ops.vDraw w.gl w.app.oParticleSystem ∧
    (RenderScene ops w).world.app.oPainter = w.app.oPainter ∧
    (RenderScene ops w).world.app.m_ui32Vbo = w.app.m_ui32Vbo :=
  ⟨rfl, rfl, rfl, rfl⟩

/-- When `vInit` always returns, the hook with the error channel is the hook
without it. -/
theorem InitViewRaising_of_returning {Err : Type}
    (ops : ParticleSystemOps Ctx ParticleSystem) (w : World Ctx Painter ParticleSystem) :
    InitViewRaising (fun gl ps => (Except.ok (ops.vInit gl ps) : Except Err _)) w
      = Except.ok (InitView ops w) :=
  rfl

/-- C3, as stated, fails on the code: on the fresh world, whose painter has
not acquired its resources, `InitView` makes no call on `oPainter` and the
painter has still not acquired them afterwards. -/
theorem InitView_leaves_painter_untouched :
    ¬ ((∃ c, c ∈ (InitView probeOps freshWorld).calls ∧ c.receiver = Member.oPainter) ∨
        (InitView probeOps freshWorld).world.app.oPainter = true) := by
  rintro (⟨c, hc, hr⟩ | h)
  · simp only [InitView, List.mem_singleton] at hc
    subst hc
    exact absurd hr (by decide)
  · exact absurd h (by decide)

/-- C3, amended: one invocation of `InitView` makes exactly one member call,
`oParticleSystem.vInit()`; the rendering context and the particle system
afterwards are what `vInit` left, and the painter and the buffer handle are
as before. -/
theorem InitView_inits_particle_system_once (ops : ParticleSystemOps Ctx ParticleSystem)
    (w : World Ctx Painter ParticleSystem) :
    (InitView ops w).calls = [⟨Member.oParticleSystem, Method.vInit⟩] ∧
    ((InitView ops w).world.gl, (InitView ops w).world.app.oParticleSystem)
      = ops.vInit w.gl w.app.oParticleSystem ∧
    (InitView ops w).world.app.oPainter = w.app.oPainter ∧
    (InitView ops w).world.app.m_ui32Vbo = w.app.m_ui32Vbo :=
  ⟨rfl, rfl, rfl, rfl⟩

/-- C5: `ReleaseView` leaves `oParticleSystem` exactly as it was. -/
theorem ReleaseView_keeps_particle_system (w : World Ctx Painter ParticleSystem) :
    (ReleaseView w).world.app.oParticleSystem = w.app.oParticleSystem :=
  rfl

/-- C6: `QuitApplication` performs no action: `m_ui32Vbo`, `oPainter` and
`oParticleSystem` are unchanged, so is the rendering context, no member
function is called, and the hook returns true. -/
theorem QuitApplication_no_action (w : World Ctx Painter ParticleSystem) :
    (QuitApplication w).world.app.m_ui32Vbo = w.app.m_ui32Vbo ∧
    (QuitApplication w).world.app.oPainter = w.app.oPainter ∧
    (QuitApplication w).world.app.oParticleSystem = w.app.oParticleSystem ∧
    (QuitApplication w).world.gl = w.gl ∧
    (QuitApplication w).calls = [] ∧
    (QuitApplication w).ret = true :=
  ⟨rfl, rfl, rfl, rfl, rfl, rfl⟩

/-- C10: each of the five hooks returns true on every state, and
`RenderScene` returns true again after any number of frames. -/
theorem hooks_always_return_true (ops : ParticleSystemOps Ctx ParticleSystem)
    (w : World Ctx Painter ParticleSystem) :
    (InitApplication w).ret = true ∧
    (InitView ops w).ret = true ∧
    (RenderScene ops w).ret = true ∧
    (ReleaseView w).ret = true ∧
    (QuitApplication w).ret = true ∧
    ∀ n : ℕ, (RenderScene ops (afterFrames ops n w)).ret = true :=
  ⟨rfl, rfl, rfl, rfl, rfl, fun _ => rfl⟩

end PVRShell

/-! # Properties of the simulation model -/

namespace ParticleSim

theorem integrate_zero (force : Vec3) (p : Particle) (h : 0 < p.lifetime) :
    integrate force 0 p = p := by
  cases p with
  | mk pos vel life col a sz =>
    cases pos; cases vel; cases force
    simp only [integrate, Vec3.add, Vec3.scale, mul_zero, add_zero, sub_zero]
    simp only at h
    rw [max_eq_right h.le]

theorem updateParticle_zero (force : Vec3) (p : Particle) :
    updateParticle force 0 p = p := by
  unfold updateParticle
  by_cases h : 0 < p.lifetime
  · simp only [h, if_true, integrate_zero force p h]
  · simp only [h, if_false]

theorem update_zero (ps : ParticleSystem) : ps.update 0 = ps := by
  have h : updateParticle ps.config.force 0 = id := funext (updateParticle_zero _)
  simp only [ParticleSystem.update, h, List.map_id]

theorem update_getElem? (ps : ParticleSystem) (dt : ℚ) (i : ℕ) (p : Particle)
    (hp : ps.particles[i]? = some p) :
    (ps.update dt).particles[i]? = some (updateParticle ps.config.force dt p) := by
  simp only [ParticleSystem.update, List.getElem?_map, hp, Option.map_some']

theorem updateParticle_lifetime_nonneg (force : Vec3) (dt : ℚ) (p : Particle)
    (h : 0 ≤ p.lifetime) : 0 ≤ (updateParticle force dt p).lifetime := by
  unfold updateParticle
  by_cases hl : 0 < p.lifetime
  · simp only [hl, if_true, integrate]
    exact le_max_left _ _
  · simpa only [hl, if_false] using h

theorem reachable_pool (cfg : Config) (ps : ParticleSystem) (h : Reachable cfg ps) :
    ps.config = cfg ∧ (ps.particles.length : ℤ) = cfg.capacity := by
  induction h with
  | init hinit =>
    unfold initializeSystem at hinit
    split_ifs at hinit with h1 h2
    injection hinit with hps
    subst hps
    refine ⟨rfl, ?_⟩
    simp only [List.length_map, List.length_range]
    exact Int.toNat_of_nonneg (not_lt.mp h1)
  | step dt _ ih =>
    refine ⟨ih.1, ?_⟩
    simp only [ParticleSystem.update, List.length_map]
    exact ih.2

theorem reachable_lifetime_nonneg (cfg : Config) (ps : ParticleSystem)
    (h : Reachable cfg ps) : ∀ p, p ∈ ps.particles → 0 ≤ p.lifetime := by
  induction h with
  | init hinit =>
    unfold initializeSystem at hinit
    split_ifs at hinit with h1 h2
    injection hinit with hps
    subst hps
    intro p hp
    simp only [List.mem_map, List.mem_range] at hp
    obtain ⟨i, _, rfl⟩ := hp
    have hmin : 0 ≤ cfg.lifetimeMin := by
      by_contra hneg
      exact h2 (Or.inl (not_le.mp hneg))
    simp only [seedParticle]
    exact le_trans hmin (le_max_left _ _)
  | step dt _ ih =>
    intro p hp
    simp only [ParticleSystem.update, List.mem_map] at hp
    obtain ⟨q, hq, rfl⟩ := hp
    exact updateParticle_lifetime_nonneg _ _ _ (ih q hq)

end ParticleSim

/-! ## Lifetime, motion and the renderable snapshot -/

namespace ParticleSim

/-- C7: in every state a particle system reaches, for every particle of the
pool and every time step `dt ≥ 0`, the particle's lifetime after `update(dt)`
is `max(0, lifetimeBefore - dt)`, and it is not negative. -/
theorem update_clamps_lifetime (cfg : Config) (ps : ParticleSystem) (h : Reachable cfg ps)
    (dt : ℚ) (hdt : 0 ≤ dt) (i : ℕ) (p : Particle) (hp : ps.particles[i]? = some p) :
    ∃ q, (ps.update dt).particles[i]? = some q ∧
      q.lifetime = max 0 (p.lifetime - dt) ∧ 0 ≤ q.lifetime := by
  have hl : 0 ≤ p.lifetime :=
    reachable_lifetime_nonneg cfg ps h p (List.getElem?_mem hp)
  have hq : (updateParticle ps.config.force dt p).lifetime = max 0 (p.lifetime - dt) := by
    unfold updateParticle
    by_cases hlive : 0 < p.lifetime
    · simp only [hlive, if_true, integrate]
    · have h0 : p.lifetime = 0 := le_antisymm (not_lt.mp hlive) hl
      simp only [hlive, if_false]
      rw [h0, zero_sub, max_eq_left (neg_nonpos.mpr hdt)]
  refine ⟨updateParticle ps.config.force dt p, update_getElem? ps dt i p hp, hq, ?_⟩
  rw [hq]
  exact le_max_left _ _

/-- An instance of `update_clamps_lifetime`: the freshly initialised burst
system, `dt = 3`, slot 1, whose particle has 2 seconds left and ends at 0. -/
theorem update_clamps_lifetime_witness :
    (Reachable burstConfig burstPool ∧ (0 : ℚ) ≤ 3 ∧ burstPool.particles[1]? = some seed) ∧
    ∃ q, (burstPool.update 3).particles[1]? = some q ∧
      q.lifetime = max 0 (seed.lifetime - 3) ∧ 0 ≤ q.lifetime :=
  have hr : Reachable burstConfig burstPool :=
    Reachable.init (by
      norm_num [initializeSystem, seedParticle, burstConfig, burstPool, seed, List.range,
        List.range.loop])
  ⟨⟨hr, by norm_num, rfl⟩,
    update_clamps_lifetime burstConfig burstPool hr 3 (by norm_num) 1 seed rfl⟩

/-- C8: for every particle system, every time step `dt` and every live
particle of the pool, after `update(dt)` the particle's position is
`positionBefore + velocityBefore * dt` and its velocity is
`velocityBefore + force * dt`; and `update(0)` changes no attribute of any
particle. -/
theorem update_integrates_live (ps : ParticleSystem) (dt : ℚ) :
    (∀ (i : ℕ) (p : Particle), ps.particles[i]? = some p → 0 < p.lifetime →
      ∃ q, (ps.update dt).particles[i]? = some q ∧
        q.position = p.position.add (p.velocity.scale dt) ∧
        q.velocity = p.velocity.add (ps.config.force.scale dt)) ∧
    ps.update 0 = ps := by
  refine ⟨?_, update_zero ps⟩
  intro i p hp hlive
  refine ⟨updateParticle ps.config.force dt p, update_getElem? ps dt i p hp, ?_⟩
  simp only [updateParticle, hlive, if_true, integrate, and_self]

/-- An instance of `update_integrates_live`: the freshly initialised burst
system under gravity, `dt = 3`, slot 0, and `update(0)` on that system. -/
theorem update_integrates_live_witness :
    (burstPool.particles[0]? = some seed ∧ 0 < seed.lifetime) ∧
    (∃ q, (burstPool.update 3).particles[0]? = some q ∧
      q.position = seed.position.add (seed.velocity.scale 3) ∧
      q.velocity = seed.velocity.add (burstPool.config.force.scale 3)) ∧
    burstPool.update 0 = burstPool :=
  ⟨⟨rfl, by norm_num [seed]⟩,
    (update_integrates_live burstPool 3).1 0 seed rfl (by norm_num [seed]),
    (update_integrates_live burstPool 3).2⟩

/-- C9: for every state a particle system reaches (a successful
initialisation followed by any updates), the renderable snapshot holds
exactly the render attributes of the particles whose lifetime is above 0, one
entry per such particle, and has no more entries than the configured
capacity. -/
theorem snapshot_live_and_bounded (cfg : Config) (ps : ParticleSystem)
    (h : Reachable cfg ps) :
    (∀ e, e ∈ ps.getRenderableSnapshot ↔
      ∃ p, p ∈ ps.particles ∧ 0 < p.lifetime ∧ p.toRender = e) ∧
    ps.getRenderableSnapshot.length
      = ps.particles.countP (fun p => decide (0 < p.lifetime)) ∧
    (ps.getRenderableSnapshot.length : ℤ) ≤ cfg.capacity := by
  have hlen : ps.getRenderableSnapshot.length
      = ps.particles.countP (fun p => decide (0 < p.lifetime)) := by
    simp only [ParticleSystem.getRenderableSnapshot, List.length_map, List.countP_eq_length_filter]
  refine ⟨?_, hlen, ?_⟩
  · intro e
    simp only [ParticleSystem.getRenderableSnapshot, List.mem_map, List.mem_filter,
      decide_eq_true_eq, and_assoc]
  · rw [hlen, ← (reachable_pool cfg ps h).2]
    exact_mod_cast List.countP_le_length _

/-- An instance of `snapshot_live_and_bounded`: the burst system one update
after its initialisation. -/
theorem snapshot_live_and_bounded_witness :
    Reachable burstConfig (burstPool.update 1) ∧
    ((∀ e, e ∈ (burstPool.update 1).getRenderableSnapshot ↔
      ∃ p, p ∈ (burstPool.update 1).particles ∧ 0 < p.lifetime ∧ p.toRender = e) ∧
    (burstPool.update 1).getRenderableSnapshot.length
      = (burstPool.update 1).particles.countP (fun p => decide (0 < p.lifetime)) ∧
    ((burstPool.update 1).getRenderableSnapshot.length : ℤ) ≤ burstConfig.capacity) :=
  have hr : Reachable burstConfig (burstPool.update 1) :=
    Reachable.step 1 (Reachable.init (by
      norm_num [initializeSystem, seedParticle, burstConfig, burstPool, seed, List.range,
        List.range.loop]))
  ⟨hr, snapshot_live_and_bounded burstConfig (burstPool.update 1) hr⟩

end ParticleSim
